import Mathlib

/-!
Verification of the generated BAML client registration file
`client-tests/test1/python/baml_client/__do_not_import/clients/client_resilientgpt4.py`
against the registry contract it exercises.

The file itself performs a single module-load-time call
`LLMManager.add_llm(name=..., provider=..., retry_policy=..., options=...)`.
The registry (`baml_core.provider_manager.LLMManager`) is an external
collaborator whose code is not part of this repository fragment, so it is
modelled here from its specified contract; the call site is embedded
directly from the source file.
-/

namespace Baml

/-- A retry policy is an opaque, separately-defined structure; the generated
file only ever passes `None`, so its contents are irrelevant here. -/
def RetryPolicy : Type := Unit

instance : DecidableEq RetryPolicy := fun _ _ => isTrue rfl

/-- A provider-specific options bag. For the fallback provider kind the only
field is `strategy`: an ordered list of delegate references, each of which is
a Python dict modelled as an association list of string keys to string
values (a well-formed delegate reference has the single key "client"). -/
structure Options where
  strategy : List (List (String × String))
deriving DecidableEq

/-- The argument record of one `LLMManager.add_llm` call. -/
structure AddLlmCall where
  name : String
  provider : String
  retry_policy : Option RetryPolicy
  options : Options
deriving DecidableEq

/-- The strategy literal passed by `client_resilientgpt4.py` line 22:
three delegate dicts, each with the single key "client". -/
def resilientStrategy : List (List (String × String)) :=
  [[("client", "AZURE_DEFAULT")], [("client", "AZURE_GPT4")], [("client", "LARGE_RESPONSE")]]

/-- The single `LLMManager.add_llm` call made by `client_resilientgpt4.py`
lines 17-24: name "ResilientGPT4", provider "baml-fallback",
retry_policy None, options with the three-element strategy. -/
def resilientGPT4_call : AddLlmCall :=
  { name := "ResilientGPT4"
  , provider := "baml-fallback"
  , retry_policy := none
  , options := { strategy := resilientStrategy } }

/-- The ordered sequence of registry-mutating calls performed when the module
is imported: the file's only top-level statement is the one `add_llm` call. -/
def moduleRegistrations : List AddLlmCall := [resilientGPT4_call]

/-- The module-level names bound by the file: the single assignment
`ResilientGPT4 = LLMManager.add_llm(...)`. -/
def moduleBindings : List String := ["ResilientGPT4"]

/-- A stored client definition: provider discriminator, optional retry
policy, and provider-specific options. -/
structure ClientDefinition where
  provider : String
  retry_policy : Option RetryPolicy
  options : Options
deriving DecidableEq

/-- The opaque handle returned by a successful registration, bound to the
registered name. -/
structure ClientHandle where
  name : String
deriving DecidableEq

/-- Registration-time validation errors of the registry contract. -/
inductive RegisterError where
  | duplicateName
  | unknownProvider
  | invalidOptions
deriving DecidableEq

/-- Modelled from the spec: the process-wide client registry is a map from
client name to client definition, kept here as an insertion-ordered
association list (`baml_core.provider_manager.LLMManager` is not part of
this repository fragment). -/
structure Registry where
  entries : List (String × ClientDefinition)
deriving DecidableEq

/-- Modelled from the spec: the fixed set of recognized provider
discriminators. The only provider kind exercised by this fragment is the
fallback kind, whose discriminator in the generated code is
"baml-fallback". -/
def knownProviders : List String := ["baml-fallback"]

/-- A delegate reference is well-formed when it is a mapping with exactly
one key, "client", whose value is a non-empty client name. -/
def wellFormedDelegate (d : List (String × String)) : Bool :=
  match d with
  | [(k, v)] => k == "client" && !(v == "")
  | _ => false

/-- Modelled from the spec: a fallback strategy is valid when it is a
non-empty list of well-formed delegate references. -/
def validFallbackStrategy (s : List (List (String × String))) : Bool :=
  !s.isEmpty && s.all wellFormedDelegate

/-- Modelled from the spec: provider-kind-specific options validation; the
fallback kind requires a valid strategy list. -/
def optionsValid (provider : String) (o : Options) : Bool :=
  if provider == "baml-fallback" then validFallbackStrategy o.strategy else true

/-- Whether a name is already registered. -/
def Registry.containsName (r : Registry) (n : String) : Bool :=
  r.entries.any (fun e => e.1 == n)

/-- Modelled from the spec: the registry's registration operation
`register(name, provider, retry_policy, options)`. It validates in the
order the contract lists its error conditions — duplicate name, unknown
provider, invalid options — and on success appends the definition and
returns the updated registry with a handle bound to `name`. -/
def register (r : Registry) (name provider : String)
    (rp : Option RetryPolicy) (opts : Options) :
    Except RegisterError (Registry × ClientHandle) :=
  if r.containsName name then
    .error .duplicateName
  else if !(knownProviders.contains provider) then
    .error .unknownProvider
  else if !(optionsValid provider opts) then
    .error .invalidOptions
  else
    .ok ({ entries := r.entries ++ [(name, { provider := provider, retry_policy := rp, options := opts })] },
         { name := name })

/-- Look a registered definition up by name. -/
def Registry.lookup (r : Registry) (n : String) : Option ClientDefinition :=
  (r.entries.find? (fun e => e.1 == n)).map (fun e => e.2)

/-- The delegate order encoded by an options bag: the value of the "client"
key of each strategy element, in list order. -/
def delegateOrder (o : Options) : List String :=
  o.strategy.filterMap (fun d => (d.find? (fun kv => kv.1 == "client")).map (fun kv => kv.2))

/-- The resolved delegate order of a registered name, if the name is
registered. -/
def resolvedDelegateOrder (r : Registry) (n : String) : Option (List String) :=
  (r.lookup n).map (fun d => delegateOrder d.options)

/-- Resolution-time error of the registry contract. -/
inductive ResolveError where
  | unresolvedDelegate
deriving DecidableEq

/-- Modelled from the spec: resolve a list of delegate names against the
registry; a delegate name not (yet) registered fails with
UnresolvedDelegateError. -/
def resolveAll (r : Registry) : List String → Except ResolveError (List ClientDefinition)
  | [] => .ok []
  | n :: rest =>
    match r.lookup n with
    | none => .error .unresolvedDelegate
    | some d => (resolveAll r rest).map (fun ds => d :: ds)

/-- The effect of importing the module on a registry state: the file performs
its single `add_llm` call and installs no error handler, so the call's
outcome — handle or error — is the import's outcome. -/
def importModule (r : Registry) : Except RegisterError (Registry × ClientHandle) :=
  register r resilientGPT4_call.name resilientGPT4_call.provider
    resilientGPT4_call.retry_policy resilientGPT4_call.options

/-! Helper lemmas about the registry operations. -/

lemma register_ok (r : Registry) (n p : String) (rp : Option RetryPolicy) (o : Options)
    (h1 : r.containsName n = false)
    (h2 : knownProviders.contains p = true)
    (h3 : optionsValid p o = true) :
    register r n p rp o =
      .ok (⟨r.entries ++ [(n, ⟨p, rp, o⟩)]⟩, ⟨n⟩) := by
  have h2' : p ∈ knownProviders := by simpa using h2
  simp [register, h1, h2', h3]

lemma register_ok_inv (r r' : Registry) (n p : String) (rp : Option RetryPolicy)
    (o : Options) (h : ClientHandle)
    (hreg : register r n p rp o = .ok (r', h)) :
    r.containsName n = false ∧
    r'.entries = r.entries ++ [(n, ⟨p, rp, o⟩)] ∧ h = ⟨n⟩ := by
  unfold register at hreg
  split at hreg
  · cases hreg
  · split at hreg
    · cases hreg
    · split at hreg
      · cases hreg
      · refine ⟨by simp_all, ?_, ?_⟩
        · cases hreg; rfl
        · cases hreg; rfl

lemma find?_eq_none_of_fresh (r : Registry) (n : String)
    (h : r.containsName n = false) :
    r.entries.find? (fun e => e.1 == n) = none := by
  rw [List.find?_eq_none]
  intro x hx hpx
  have : r.entries.any (fun e => e.1 == n) = true := List.any_eq_true.mpr ⟨x, hx, hpx⟩
  rw [Registry.containsName] at h
  simp [this] at h

lemma lookup_append_self (r : Registry) (n : String) (d : ClientDefinition)
    (h : r.containsName n = false) :
    Registry.lookup ⟨r.entries ++ [(n, d)]⟩ n = some d := by
  simp [Registry.lookup, List.find?_append, find?_eq_none_of_fresh r n h]

lemma lookup_append_other (r : Registry) (m : String) (x : String × ClientDefinition)
    (h : (r.lookup m).isSome = true) :
    Registry.lookup ⟨r.entries ++ [x]⟩ m = r.lookup m := by
  rw [Registry.lookup, Registry.lookup, List.find?_append]
  rw [Registry.lookup] at h
  cases hf : r.entries.find? (fun e => e.1 == m) with
  | none => rw [hf] at h; simp at h
  | some y => simp [hf]

lemma resolveAll_error_of_missing (r : Registry) (ds : List String) (d : String)
    (hd : d ∈ ds) (hm : r.lookup d = none) :
    resolveAll r ds = .error .unresolvedDelegate := by
  induction ds with
  | nil => cases hd
  | cons x rest ih =>
    cases hd with
    | head => simp [resolveAll, hm]
    | tail _ hmem =>
      cases hx : r.lookup x with
      | none => simp [resolveAll, hx]
      | some dd => simp [resolveAll, hx, ih hmem, Except.map]

lemma delegateOrder_three (a b c : String) :
    delegateOrder ⟨[[("client", a)], [("client", b)], [("client", c)]]⟩ = [a, b, c] := by
  simp [delegateOrder, List.filterMap_cons, List.find?_cons]

/-! Claim theorems. -/

/-- C1 (counterexample): the claim that the file's registration passes the
provider discriminator "fallback" is false: the file's single call passes
the provider discriminator "baml-fallback", which differs from "fallback". -/
theorem c1_provider_counterexample :
    moduleRegistrations.map AddLlmCall.provider = ["baml-fallback"] ∧
    (("baml-fallback" : String) == "fallback") = false :=
  ⟨rfl, by decide⟩

/-- C1 (amended): at module-load time the generated file calls the registry's
registration operation exactly once, passing the name "ResilientGPT4", the
provider discriminator "baml-fallback", an absent retry policy (None), and an
options bag whose strategy is the ordered three-element delegate list
AZURE_DEFAULT, AZURE_GPT4, LARGE_RESPONSE. -/
theorem c1_registration_call :
    moduleRegistrations.length = 1 ∧
    moduleRegistrations =
      [{ name := "ResilientGPT4"
       , provider := "baml-fallback"
       , retry_policy := none
       , options := { strategy :=
          [[("client", "AZURE_DEFAULT")], [("client", "AZURE_GPT4")], [("client", "LARGE_RESPONSE")]] } }] :=
  ⟨rfl, rfl⟩

/-- C2: every successful registration of the fallback provider kind with
strategy list [{"client": A}, {"client": B}, {"client": C}] yields a handle
bound to the registered name whose resolved delegate order is [A, B, C]; in
particular, importing this file into an empty registry stores a definition
whose resolved delegate order is
[AZURE_DEFAULT, AZURE_GPT4, LARGE_RESPONSE]. -/
theorem c2_fallback_preserves_order (r r' : Registry) (n : String)
    (rp : Option RetryPolicy) (a b c : String) (h : ClientHandle)
    (hreg : register r n "baml-fallback" rp
      ⟨[[("client", a)], [("client", b)], [("client", c)]]⟩ = .ok (r', h)) :
    h.name = n ∧ resolvedDelegateOrder r' n = some [a, b, c] ∧
    importModule ⟨[]⟩ =
      .ok (⟨[("ResilientGPT4", ⟨"baml-fallback", none, ⟨resilientStrategy⟩⟩)]⟩, ⟨"ResilientGPT4"⟩) ∧
    resolvedDelegateOrder ⟨[("ResilientGPT4", ⟨"baml-fallback", none, ⟨resilientStrategy⟩⟩)]⟩
      "ResilientGPT4" = some ["AZURE_DEFAULT", "AZURE_GPT4", "LARGE_RESPONSE"] := by
  obtain ⟨hfresh, hent, hh⟩ := register_ok_inv r r' n "baml-fallback" rp _ h hreg
  refine ⟨by rw [hh], ?_, by rfl, by rfl⟩
  have : r' = ⟨r.entries ++ [(n, ⟨"baml-fallback", rp, ⟨[[("client", a)], [("client", b)], [("client", c)]]⟩⟩)]⟩ := by
    cases r'; simpa using hent
  rw [this, resolvedDelegateOrder, lookup_append_self r n _ hfresh]
  simp [delegateOrder_three]

/-- C2 witness: the general theorem applied to the file's own registration
into the empty registry. -/
theorem c2_witness :
    (ClientHandle.mk "ResilientGPT4").name = "ResilientGPT4" ∧
    resolvedDelegateOrder ⟨[("ResilientGPT4", ⟨"baml-fallback", none, ⟨resilientStrategy⟩⟩)]⟩
        "ResilientGPT4" = some ["AZURE_DEFAULT", "AZURE_GPT4", "LARGE_RESPONSE"] ∧
    importModule ⟨[]⟩ =
      .ok (⟨[("ResilientGPT4", ⟨"baml-fallback", none, ⟨resilientStrategy⟩⟩)]⟩, ⟨"ResilientGPT4"⟩) ∧
    resolvedDelegateOrder ⟨[("ResilientGPT4", ⟨"baml-fallback", none, ⟨resilientStrategy⟩⟩)]⟩
      "ResilientGPT4" = some ["AZURE_DEFAULT", "AZURE_GPT4", "LARGE_RESPONSE"] :=
  c2_fallback_preserves_order ⟨[]⟩
    ⟨[("ResilientGPT4", ⟨"baml-fallback", none, ⟨resilientStrategy⟩⟩)]⟩
    "ResilientGPT4" none "AZURE_DEFAULT" "AZURE_GPT4" "LARGE_RESPONSE"
    ⟨"ResilientGPT4"⟩ (by rfl)

/-- C3 (counterexample): a fresh name alone does not guarantee success:
registering the fresh name "GPT4" with the unrecognized provider
"no-such-provider" (and an otherwise well-formed options bag) fails. -/
theorem c3_fresh_name_counterexample :
    (Registry.mk []).containsName "GPT4" = false ∧
    register ⟨[]⟩ "GPT4" "no-such-provider" none ⟨resilientStrategy⟩ =
      .error .unknownProvider :=
  ⟨rfl, rfl⟩

/-- C3 (amended): for every name not already present in the registry, with a
recognized provider and options valid for that provider,
register(name, provider, retry_policy, options) succeeds and returns a
handle whose name equals the input name. -/
theorem c3_register_fresh_succeeds (r : Registry) (n p : String)
    (rp : Option RetryPolicy) (o : Options)
    (hfresh : r.containsName n = false)
    (hp : knownProviders.contains p = true)
    (ho : optionsValid p o = true) :
    register r n p rp o = .ok (⟨r.entries ++ [(n, ⟨p, rp, o⟩)]⟩, ⟨n⟩) ∧
    (ClientHandle.mk n).name = n :=
  ⟨register_ok r n p rp o hfresh hp ho, rfl⟩

/-- C3 witness: registering the fresh name "GPT4" with the fallback provider
and a valid strategy in the empty registry. -/
theorem c3_witness :
    register ⟨[]⟩ "GPT4" "baml-fallback" none ⟨resilientStrategy⟩ =
      .ok (⟨[("GPT4", ⟨"baml-fallback", none, ⟨resilientStrategy⟩⟩)]⟩, ⟨"GPT4"⟩) ∧
    (ClientHandle.mk "GPT4").name = "GPT4" := by
  have := c3_register_fresh_succeeds ⟨[]⟩ "GPT4" "baml-fallback" none
    ⟨resilientStrategy⟩ (by decide) (by decide) (by decide)
  simpa using this

/-- C4: for every registry state, name already registered in it, provider,
retry policy and options, a second register call with that name fails with
DuplicateNameError. -/
theorem c4_duplicate_name_fails (r : Registry) (n p : String)
    (rp : Option RetryPolicy) (o : Options)
    (hdup : r.containsName n = true) :
    register r n p rp o = .error .duplicateName := by
  simp [register, hdup]

/-- C4 witness: re-registering "ResilientGPT4" in a registry that already
holds it fails with DuplicateNameError. -/
theorem c4_witness :
    register ⟨[("ResilientGPT4", ⟨"baml-fallback", none, ⟨resilientStrategy⟩⟩)]⟩
      "ResilientGPT4" "baml-fallback" none ⟨resilientStrategy⟩ =
      .error .duplicateName :=
  c4_duplicate_name_fails
    ⟨[("ResilientGPT4", ⟨"baml-fallback", none, ⟨resilientStrategy⟩⟩)]⟩
    "ResilientGPT4" "baml-fallback" none ⟨resilientStrategy⟩ (by decide)

/-- C5 (counterexample): the error is not InvalidOptionsError for every
fallback registration with an empty strategy: when the name is already
registered the duplicate-name check fires first, so the call fails with
DuplicateNameError instead. -/
theorem c5_empty_strategy_counterexample :
    register ⟨[("X", ⟨"baml-fallback", none, ⟨resilientStrategy⟩⟩)]⟩
      "X" "baml-fallback" none ⟨[]⟩ = .error .duplicateName ∧
    (RegisterError.duplicateName == RegisterError.invalidOptions) = false :=
  ⟨rfl, by decide⟩

/-- C5 (amended): for every registration with a not-already-registered name
whose provider is the fallback kind and whose options.strategy is the empty
list, register fails with an InvalidOptionsError. -/
theorem c5_empty_strategy_invalid (r : Registry) (n : String)
    (rp : Option RetryPolicy)
    (hfresh : r.containsName n = false) :
    register r n "baml-fallback" rp ⟨[]⟩ = .error .invalidOptions := by
  simp [register, hfresh, knownProviders, optionsValid, validFallbackStrategy]

/-- C5 witness: a fresh-name fallback registration with an empty strategy in
the empty registry fails with InvalidOptionsError. -/
theorem c5_witness :
    register ⟨[]⟩ "EMPTY" "baml-fallback" none ⟨[]⟩ = .error .invalidOptions :=
  c5_empty_strategy_invalid ⟨[]⟩ "EMPTY" none (by decide)

/-- C6 (counterexample): an unrecognized provider does not fail with
UnknownProviderError for every call: when the name is already registered the
duplicate-name check fires first, so the call fails with DuplicateNameError
instead. -/
theorem c6_unknown_provider_counterexample :
    knownProviders.contains "no-such-provider" = false ∧
    register ⟨[("X", ⟨"baml-fallback", none, ⟨resilientStrategy⟩⟩)]⟩
      "X" "no-such-provider" none ⟨[]⟩ = .error .duplicateName ∧
    (RegisterError.duplicateName == RegisterError.unknownProvider) = false :=
  ⟨by decide, rfl, by decide⟩

/-- C6 (amended): for every call to register with a not-already-registered
name whose provider argument is not a member of the fixed set of known
provider kinds, registration fails with an UnknownProviderError; and since
the generated file installs no error handler around its single call, any
error that call produces is the outcome of the module import itself. -/
theorem c6_unknown_provider_fails (r : Registry) (n p : String)
    (rp : Option RetryPolicy) (o : Options)
    (r0 : Registry) (e : RegisterError)
    (hfresh : r.containsName n = false)
    (hp : knownProviders.contains p = false)
    (hcall : register r0 resilientGPT4_call.name resilientGPT4_call.provider
      resilientGPT4_call.retry_policy resilientGPT4_call.options = .error e) :
    register r n p rp o = .error .unknownProvider ∧
    importModule r0 = .error e := by
  constructor
  · have hp' : ¬ p ∈ knownProviders := by simpa using hp
    simp [register, hfresh, hp']
  · rw [importModule, hcall]

/-- C6 witness: the unknown provider "no-such-provider" on a fresh name fails
with UnknownProviderError, and a registry already holding "ResilientGPT4"
makes the module import itself surface DuplicateNameError. -/
theorem c6_witness :
    register ⟨[]⟩ "Y" "no-such-provider" none ⟨resilientStrategy⟩ =
      .error .unknownProvider ∧
    importModule ⟨[("ResilientGPT4", ⟨"baml-fallback", none, ⟨resilientStrategy⟩⟩)]⟩ =
      .error .duplicateName :=
  c6_unknown_provider_fails ⟨[]⟩ "Y" "no-such-provider" none ⟨resilientStrategy⟩
    ⟨[("ResilientGPT4", ⟨"baml-fallback", none, ⟨resilientStrategy⟩⟩)]⟩
    .duplicateName (by decide) (by decide) (by rfl)

/-- C7: a fallback registration with a valid strategy succeeds for every
registry state — in particular regardless of whether its delegate names are
registered yet, so a forward reference does not fail registration — while
resolving a delegate list containing a name that is not registered fails
with UnresolvedDelegateError. -/
theorem c7_forward_reference_ok (r : Registry) (n : String)
    (rp : Option RetryPolicy) (strat : List (List (String × String)))
    (r1 : Registry) (ds : List String) (d : String)
    (hfresh : r.containsName n = false)
    (hvalid : validFallbackStrategy strat = true)
    (hd : d ∈ ds) (hmiss : r1.lookup d = none) :
    register r n "baml-fallback" rp ⟨strat⟩ =
      .ok (⟨r.entries ++ [(n, ⟨"baml-fallback", rp, ⟨strat⟩⟩)]⟩, ⟨n⟩) ∧
    resolveAll r1 ds = .error .unresolvedDelegate :=
  ⟨register_ok r n "baml-fallback" rp ⟨strat⟩ hfresh (by decide)
      (by simpa [optionsValid] using hvalid),
   resolveAll_error_of_missing r1 ds d hd hmiss⟩

/-- C7 witness: this file's registration into the empty registry succeeds
although its delegate "LARGE_RESPONSE" is unregistered, and resolving the
stored delegate order in the resulting registry fails. -/
theorem c7_witness :
    register ⟨[]⟩ "ResilientGPT4" "baml-fallback" none ⟨resilientStrategy⟩ =
      .ok (⟨[("ResilientGPT4", ⟨"baml-fallback", none, ⟨resilientStrategy⟩⟩)]⟩, ⟨"ResilientGPT4"⟩) ∧
    resolveAll ⟨[("ResilientGPT4", ⟨"baml-fallback", none, ⟨resilientStrategy⟩⟩)]⟩
      ["AZURE_DEFAULT", "AZURE_GPT4", "LARGE_RESPONSE"] = .error .unresolvedDelegate :=
  c7_forward_reference_ok ⟨[]⟩ "ResilientGPT4" none resilientStrategy
    ⟨[("ResilientGPT4", ⟨"baml-fallback", none, ⟨resilientStrategy⟩⟩)]⟩
    ["AZURE_DEFAULT", "AZURE_GPT4", "LARGE_RESPONSE"] "LARGE_RESPONSE"
    (by decide) (by decide) (by decide) (by rfl)

/-- C8: the registry is insert-only: for every already-registered name, a
later successful registration (necessarily of a different name) leaves the
stored definition — provider, retry policy and options — unchanged. -/
theorem c8_insert_only (r r' : Registry) (n p m : String)
    (rp : Option RetryPolicy) (o : Options) (h : ClientHandle)
    (hm : (r.lookup m).isSome = true)
    (hreg : register r n p rp o = .ok (r', h)) :
    r'.lookup m = r.lookup m := by
  obtain ⟨_, hent, _⟩ := register_ok_inv r r' n p rp o h hreg
  have : r' = ⟨r.entries ++ [(n, ⟨p, rp, o⟩)]⟩ := by cases r'; simpa using hent
  rw [this]
  exact lookup_append_other r m _ hm

/-- C8 witness: registering "GPT4" after "ResilientGPT4" leaves the stored
definition of "ResilientGPT4" unchanged. -/
theorem c8_witness :
    Registry.lookup
      ⟨[("ResilientGPT4", ⟨"baml-fallback", none, ⟨resilientStrategy⟩⟩),
        ("GPT4", ⟨"baml-fallback", none, ⟨resilientStrategy⟩⟩)]⟩ "ResilientGPT4" =
    Registry.lookup
      ⟨[("ResilientGPT4", ⟨"baml-fallback", none, ⟨resilientStrategy⟩⟩)]⟩ "ResilientGPT4" :=
  c8_insert_only
    ⟨[("ResilientGPT4", ⟨"baml-fallback", none, ⟨resilientStrategy⟩⟩)]⟩
    ⟨[("ResilientGPT4", ⟨"baml-fallback", none, ⟨resilientStrategy⟩⟩),
      ("GPT4", ⟨"baml-fallback", none, ⟨resilientStrategy⟩⟩)]⟩
    "GPT4" "baml-fallback" "ResilientGPT4" none ⟨resilientStrategy⟩ ⟨"GPT4"⟩
    (by decide) (by rfl)

/-- C9: the strategy this file passes is non-empty — it has exactly three
elements, each a mapping with exactly one key, "client", bound to a
non-empty string — so importing the module never takes the
InvalidOptionsError branch: for every registry state the import either fails
with DuplicateNameError or succeeds. -/
theorem c9_strategy_wellformed (r : Registry) :
    validFallbackStrategy resilientGPT4_call.options.strategy = true ∧
    resilientGPT4_call.options.strategy.length = 3 ∧
    resilientGPT4_call.options.strategy.all wellFormedDelegate = true ∧
    (importModule r = .error .duplicateName ∨
      importModule r =
        .ok (⟨r.entries ++ [("ResilientGPT4", ⟨"baml-fallback", none, ⟨resilientStrategy⟩⟩)]⟩,
             ⟨"ResilientGPT4"⟩)) := by
  refine ⟨by decide, by decide, by decide, ?_⟩
  cases hcn : r.containsName "ResilientGPT4" with
  | true =>
    left
    exact c4_duplicate_name_fails r "ResilientGPT4" "baml-fallback" none ⟨resilientStrategy⟩ hcn
  | false =>
    right
    exact register_ok r "ResilientGPT4" "baml-fallback" none ⟨resilientStrategy⟩ hcn
      (by decide) (by decide)

/-- C9 witness: the theorem at the empty registry, where the import
succeeds. -/
theorem c9_witness :
    validFallbackStrategy resilientGPT4_call.options.strategy = true ∧
    resilientGPT4_call.options.strategy.length = 3 ∧
    resilientGPT4_call.options.strategy.all wellFormedDelegate = true ∧
    (importModule ⟨[]⟩ = .error .duplicateName ∨
      importModule ⟨[]⟩ =
        .ok (⟨[] ++ [("ResilientGPT4", ⟨"baml-fallback", none, ⟨resilientStrategy⟩⟩)]⟩,
             ⟨"ResilientGPT4"⟩)) :=
  c9_strategy_wellformed ⟨[]⟩

/-- C10: whenever importing the module succeeds on a registry, its entire
effect is the single registration: the file performs exactly one add_llm
call, binds exactly one module-level name, ResilientGPT4, to the returned
handle, and the registry gains exactly the one "ResilientGPT4" entry, with
all pre-existing entries untouched. -/
theorem c10_single_side_effect (r r' : Registry) (h : ClientHandle)
    (hreg : importModule r = .ok (r', h)) :
    moduleRegistrations = [resilientGPT4_call] ∧
    moduleBindings = ["ResilientGPT4"] ∧
    r'.entries = r.entries ++ [("ResilientGPT4", ⟨"baml-fallback", none, ⟨resilientStrategy⟩⟩)] ∧
    h.name = "ResilientGPT4" := by
  obtain ⟨_, hent, hh⟩ := register_ok_inv r r' resilientGPT4_call.name
    resilientGPT4_call.provider resilientGPT4_call.retry_policy resilientGPT4_call.options h hreg
  exact ⟨rfl, rfl, hent, by rw [hh]; rfl⟩

/-- C10 witness: the theorem at the empty registry. -/
theorem c10_witness :
    moduleRegistrations = [resilientGPT4_call] ∧
    moduleBindings = ["ResilientGPT4"] ∧
    (Registry.mk [("ResilientGPT4", ⟨"baml-fallback", none, ⟨resilientStrategy⟩⟩)]).entries =
      [] ++ [("ResilientGPT4", ⟨"baml-fallback", none, ⟨resilientStrategy⟩⟩)] ∧
    (ClientHandle.mk "ResilientGPT4").name = "ResilientGPT4" :=
  c10_single_side_effect ⟨[]⟩
    ⟨[("ResilientGPT4", ⟨"baml-fallback", none, ⟨resilientStrategy⟩⟩)]⟩
    ⟨"ResilientGPT4"⟩ (by rfl)

end Baml
